import Mathlib

/-!
Shallow embedding of `asm80.py`, a two-pass assembler for the Intel
8080/8085, together with theorems settling a list of claims about it.

Python strings are modelled as `List Char`; Python `int` as `Int` (with
`Nat` for the program counter and counters).  Every function below mirrors
one region of the source file (line numbers cited in the doc comments).
A Python exception that the source does not catch is modelled by `none` in
an `Option`-valued result.
-/

set_option maxRecDepth 8000
set_option maxHeartbeats 2000000

/-- A Python `str`, as a list of characters. -/
abbrev Str := List Char

/-- Index of the first occurrence of `pat` in the remainder of the string,
counting from `i`; `none` when absent. -/
def findSubFrom (pat : Str) : Str → Nat → Option Nat
  | [], i => if pat.isEmpty then some i else none
  | s@(_ :: t), i => if pat.isPrefixOf s then some i else findSubFrom pat t (i + 1)

/-- Python `str.find`: index of the first occurrence of `pat`, or `-1`. -/
def pyFind (s pat : Str) : Int :=
  match findSubFrom pat s 0 with
  | some n => (n : Int)
  | none => -1

/-- Python `pat in s` (substring containment). -/
def containsSub (s pat : Str) : Bool := (findSubFrom pat s 0).isSome

/-- Python `s[:b]`. -/
def pySliceTo (s : Str) (b : Nat) : Str := s.take b

/-- Python `s[a:b]`. -/
def pySlice (s : Str) (a b : Nat) : Str := (s.take b).drop a

/-- Python `s[-n:]`. -/
def takeLast (n : Nat) (s : Str) : Str := s.drop (s.length - n)

/-- Python `str.upper` (ASCII). -/
def pyUpper (s : Str) : Str := s.map Char.toUpper

/-- Python `str.lstrip()`. -/
def pyLstrip (s : Str) : Str := s.dropWhile Char.isWhitespace

/-- Python `str.rstrip()`. -/
def pyRstrip (s : Str) : Str := (s.reverse.dropWhile Char.isWhitespace).reverse

/-- Python `str.ljust(w)`. -/
def pyLjust (w : Nat) (s : Str) : Str := s ++ List.replicate (w - s.length) ' '

/-- Python `str.rjust(w)`. -/
def pyRjust (w : Nat) (s : Str) : Str := List.replicate (w - s.length) ' ' ++ s

/-- Python `str.zfill(w)`: pad with zeros on the left, after any sign. -/
def pyZfill (w : Nat) (s : Str) : Str :=
  if s.length ≥ w then s
  else
    match s with
    | '-' :: rest => '-' :: (List.replicate (w - s.length) '0' ++ rest)
    | '+' :: rest => '+' :: (List.replicate (w - s.length) '0' ++ rest)
    | _ => List.replicate (w - s.length) '0' ++ s

/-- Python `str.split()` helper: split on whitespace runs, dropping empties. -/
def pySplitWsAux : Str → Str → List Str
  | [], cur => if cur.isEmpty then [] else [cur]
  | c :: rest, cur =>
    if c.isWhitespace then
      if cur.isEmpty then pySplitWsAux rest [] else cur :: pySplitWsAux rest []
    else pySplitWsAux rest (cur ++ [c])

/-- Python `str.split()` (no separator argument). -/
def pySplitWs (s : Str) : List Str := pySplitWsAux s []

/-- Helper for `pySplitChar`. -/
def pySplitCharAux (sep : Char) : Str → Str → List Str
  | [], cur => [cur]
  | c :: rest, cur =>
    if c == sep then cur :: pySplitCharAux sep rest []
    else pySplitCharAux sep rest (cur ++ [c])

/-- Python `str.split(sep)`, keeping empty fields.  The source only ever
reads elements 0 and 1 of the result, for which a `maxsplit` argument makes
no difference, so `split(sep)` and `split(sep, 2)` are both modelled here. -/
def pySplitChar (sep : Char) (s : Str) : List Str := pySplitCharAux sep s []

/-- Uppercase hexadecimal digit character (as used by `format(-, 'X')`). -/
def hexDigitU (n : Nat) : Char := if n < 10 then Char.ofNat (48 + n) else Char.ofNat (55 + n)

/-- Lowercase hexadecimal digit character (as used by `format(-, 'x')`). -/
def hexDigitL (n : Nat) : Char := if n < 10 then Char.ofNat (48 + n) else Char.ofNat (87 + n)

/-- Decimal digit character. -/
def decDigit (n : Nat) : Char := Char.ofNat (48 + n)

/-- Fuel-driven digit expansion of a natural number in a base; the fuel
`n + 1` used below always suffices. -/
def natDigitsCore (dig : Nat → Char) : Nat → Nat → Nat → Str
  | 0, _, _ => []
  | fuel + 1, base, n =>
    if n < base then [dig n]
    else natDigitsCore dig fuel base (n / base) ++ [dig (n % base)]

/-- Python `format(n, 'X')` for a natural number. -/
def natHexU (n : Nat) : Str := natDigitsCore hexDigitU (n + 1) 16 n

/-- Python `format(n, 'x')` for a natural number. -/
def natHexL (n : Nat) : Str := natDigitsCore hexDigitL (n + 1) 16 n

/-- Python `str(n)` for a natural number. -/
def natDecStr (n : Nat) : Str := natDigitsCore decDigit (n + 1) 10 n

/-- Python `format(i, 'X')`. -/
def pyHexU (i : Int) : Str := if i < 0 then '-' :: natHexU i.natAbs else natHexU i.natAbs

/-- Python `format(i, 'x')`. -/
def pyHexL (i : Int) : Str := if i < 0 then '-' :: natHexL i.natAbs else natHexL i.natAbs

/-- Value of one digit character in a base, accepting both letter cases. -/
def digitVal (base : Nat) (c : Char) : Option Nat :=
  let v :=
    if '0' ≤ c && c ≤ '9' then some (c.toNat - 48)
    else if 'a' ≤ c && c ≤ 'z' then some (c.toNat - 87)
    else if 'A' ≤ c && c ≤ 'Z' then some (c.toNat - 55)
    else none
  match v with
  | some d => if d < base then some d else none
  | none => none

/-- Value of a nonempty digit string in a base; `none` on a bad digit. -/
def digitsVal (base : Nat) : Str → Option Nat
  | [] => none
  | cs =>
    cs.foldl
      (fun acc c =>
        match acc, digitVal base c with
        | some a, some d => some (a * base + d)
        | _, _ => none)
      (some 0)

/-- Python `int(s, base)`: optional surrounding whitespace, an optional
sign, then a nonempty run of digits of the base.  `none` models the
`ValueError` raised on any other input. -/
def pyInt (base : Nat) (s : Str) : Option Int :=
  let t := pyRstrip (pyLstrip s)
  match t with
  | '+' :: rest => (digitsVal base rest).map (fun n => (n : Int))
  | '-' :: rest => (digitsVal base rest).map (fun n => -(n : Int))
  | _ => (digitsVal base t).map (fun n => (n : Int))

/-- Python `==` between a `str` and an `int` is always `False` (no
coercion happens); used to embed the guards on lines 594 and 757 of the
source, which compare an `Op_addr` result string against the integer 0. -/
def pyEqStrInt (_s : Str) (_n : Int) : Bool := false

/-- Python `int(a / b)` on two ints: true division followed by truncation
toward zero.  A zero divisor raises `ZeroDivisionError` (`none`).  For the
magnitudes reachable here (operands come from at most four hex digits) the
float quotient truncates exactly to `Int.tdiv`. -/
def pyIntDiv (a b : Int) : Option Int := if b == 0 then none else some (a.tdiv b)

/-- Python `a / b` stored directly into the symbol table (line 758): a
float.  A zero divisor raises (`none`); a non-integral quotient produces a
float symbol value which later makes `format(value, 'X')` raise in the
symbol trailer, so it is likewise modelled as `none`; an exact quotient is
kept as its integer value. -/
def pyDivFloat (a b : Int) : Option Int :=
  if b == 0 then none else if a % b == 0 then some (a / b) else none

/-! ### The instruction table (class `Instruction808x`, lines 55-101) -/

/-- Dictionary of 808x CPU instructions, `'Mnemonic': 'Opcode*'` where `*`
is the one-character operand type (lines 72-93). -/
def instrList : List (String × String) :=
  [("CMA", "2F-"), ("CMC", "3F-"), ("DAA", "27-"), ("DI", "F3-"),
   ("EI", "FB-"), ("HLT", "76-"), ("NOP", "00-"), ("PCHL", "E9-"), ("RAL", "17-"),
   ("RAR", "1F-"), ("RC", "D8-"), ("RET", "C9-"), ("RIM", "20-"), ("RLC", "07-"),
   ("RM", "F8-"), ("RNC", "D0-"), ("RNZ", "C0-"), ("RP", "F0-"), ("RPE", "E8-"),
   ("RPO", "E0-"), ("RRC", "0F-"), ("RZ", "C8-"), ("SIM", "30-"), ("SPHL", "F9-"),
   ("STC", "37-"), ("XCHG", "EB-"), ("XTHL", "E3-"), ("ARHL", "10-"), ("DSUB", "08-"),
   ("LHLX", "ED-"), ("RDEL", "18-"), ("RSTV", "CB-"), ("SHLX", "D9-"),
   ("ACI", "CEb"), ("ADI", "C6b"), ("ANI", "E6b"), ("CPI", "FEb"), ("ORI", "F6b"),
   ("SBI", "DEb"), ("SUI", "D6b"), ("XRI", "EEb"), ("IN", "DBb"), ("OUT", "D3b"),
   ("LDHI", "28b"), ("LDSI", "38b"),
   ("ADC", "88r"), ("ADD", "80r"), ("ANA", "A0r"), ("CMP", "B8r"), ("DCR", "05r"),
   ("INR", "04r"), ("ORA", "B0r"), ("SBB", "98r"), ("SUB", "90r"), ("XRA", "A8r"),
   ("CALL", "CDa"), ("CC", "DCa"), ("CM", "FCa"), ("CNC", "D4a"), ("CNZ", "C4a"),
   ("CP", "F4a"), ("CPE", "ECa"), ("CPO", "E4a"), ("CZ", "CCa"), ("JC", "DAa"),
   ("JM", "FAa"), ("JMP", "C3a"), ("JNC", "D2a"), ("JNZ", "C2a"), ("JP", "F2a"),
   ("JPE", "EAa"), ("JPO", "E2a"), ("JZ", "CAa"), ("LDA", "3Aa"), ("LHLD", "2Aa"),
   ("SHLD", "22a"), ("STA", "32a"), ("JNUI", "DDa"), ("JUI", "FDa"),
   ("DAD", "09p"), ("DCX", "0Bp"), ("INX", "03p"), ("POP", "C1p"), ("PUSH", "C5p"),
   ("LDAX", "0Ad"), ("STAX", "02d"), ("MOV", "40m"), ("LXI", "01w"), ("MVI", "06v"),
   ("RST", "C7i"),
   ("DB", "00b"), ("DW", "00a"), ("DS", "00a"), ("ORG", "00a"), ("EQU", "00e")]

/-- `Instruction808x.opCode` (lines 94-101): look up a mnemonic and return
the matching `Opcode*` string, or `'Error'`. -/
def opCode (mnemonic : Str) : Str :=
  match instrList.find? (fun e => e.1.toList == mnemonic) with
  | none => ("Error").toList
  | some e => if e.2.toList.length != 3 then ("Error").toList else e.2.toList

/-! ### The numeric-literal parsers (`Parse.Op_byte`, `Parse.Op_addr`) -/

/-- Range filter shared by the numeric branches of `Op_byte`
(`if dec < 0 or dec > 255: return 'Error' else return format(dec,'X').zfill(2)`). -/
def byteHexOf (dec : Int) : Str :=
  if dec < 0 || dec > 255 then ("Error").toList else pyZfill 2 (pyHexU dec)

/-- Range filter shared by the numeric branches of `Op_addr`
(`if dec < 0 or dec > 65535: return 'Error' else return format(dec,'X').zfill(4)`). -/
def addrHexOf (dec : Int) : Str :=
  if dec < 0 || dec > 65535 then ("Error").toList else pyZfill 4 (pyHexU dec)

/-- Body of the `try` block of `Parse.Op_byte` (lines 125-159); `none`
models an exception escaping the body. -/
def Op_byte_try (operand : Str) : Option Str :=
  if pyFind operand ['\''] == 0 && operand.length > 1 then
    some (pyZfill 2 (natHexU (operand.getD 1 ' ').toNat))
  else if pyFind (pyUpper operand) ['H'] > 0 && (operand.getD 0 ' ').isDigit then
    (pyInt 16 (pySliceTo operand (pyFind (pyUpper operand) ['H']).toNat)).map byteHexOf
  else if pyFind (pyUpper operand) ['Q'] > 0 && (operand.getD 0 ' ').isDigit then
    (pyInt 8 (pySliceTo operand (pyFind (pyUpper operand) ['Q']).toNat)).map byteHexOf
  else if pyFind (pyUpper operand) ['B'] > 0 && (operand.getD 0 ' ').isDigit then
    (pyInt 2 (pySliceTo operand (pyFind (pyUpper operand) ['B']).toNat)).map byteHexOf
  else
    (pyInt 10 operand).map byteHexOf

/-- `Parse.Op_byte` (lines 122-161): the bare `except` turns any exception
into the return value `'Error'`. -/
def Op_byte (operand : Str) : Str := (Op_byte_try operand).getD (("Error").toList)

/-- Body of the `try` block of `Parse.Op_addr` (lines 170-204). -/
def Op_addr_try (operand : Str) : Option Str :=
  if pyFind operand ['\''] == 0 && operand.length > 1 then
    some (pyZfill 4 (natHexU (operand.getD 1 ' ').toNat))
  else if pyFind (pyUpper operand) ['H'] > 0 && (operand.getD 0 ' ').isDigit then
    (pyInt 16 (pySliceTo operand (pyFind (pyUpper operand) ['H']).toNat)).map addrHexOf
  else if pyFind (pyUpper operand) ['Q'] > 0 && (operand.getD 0 ' ').isDigit then
    (pyInt 8 (pySliceTo operand (pyFind (pyUpper operand) ['Q']).toNat)).map addrHexOf
  else if pyFind (pyUpper operand) ['B'] > 0 && (operand.getD 0 ' ').isDigit then
    (pyInt 2 (pySliceTo operand (pyFind (pyUpper operand) ['B']).toNat)).map addrHexOf
  else
    (pyInt 10 operand).map addrHexOf

/-- `Parse.Op_addr` (lines 163-206): empty operand is `'Error'`, an
alphabetic first character is `'Label'`, otherwise a `try` body whose
exceptions become `'Error'`. -/
def Op_addr (operand : Str) : Str :=
  if operand.length == 0 then ("Error").toList
  else if (operand.getD 0 ' ').isAlpha then ("Label").toList
  else (Op_addr_try operand).getD (("Error").toList)

/-- `Parse.Op_reg` (lines 208-230): register name to SSS value, `-1` on
error. -/
def Op_reg (operand : Str) : Int :=
  if operand == ("B").toList then 0
  else if operand == ("C").toList then 1
  else if operand == ("D").toList then 2
  else if operand == ("E").toList then 3
  else if operand == ("H").toList then 4
  else if operand == ("L").toList then 5
  else if operand == ("M").toList then 6
  else if operand == ("A").toList then 7
  else if operand == ("PSW").toList then 0
  else -1

/-- `Parse.Op_regpr` (lines 232-246): register pair to RP value. -/
def Op_regpr (operand : Str) : Int :=
  if operand == ("B").toList then 0
  else if operand == ("D").toList then 1
  else if operand == ("H").toList then 2
  else if operand == ("SP").toList then 3
  else if operand == ("PSW").toList then 3
  else -1

/-- `Parse.Op_regpr2` (lines 248-256): register pair B or D. -/
def Op_regpr2 (operand : Str) : Int :=
  if operand == ("B").toList then 0
  else if operand == ("D").toList then 1
  else -1

/-! ### Pass 1 (`Parse.Pass1`, lines 260-622) -/

/-- The mutable attributes of the `Parse` object (lines 107-120, plus
`long` which `Pass1` introduces on line 267). -/
structure ParseState where
  err : Str
  ln : Nat
  pc : Nat
  b1 : Str
  b2 : Str
  b3 : Str
  long : Str
  label : Str
  mne : Str
  oper : Str
  bytes : Nat
  comment : Str
  errors : Nat
  symbols : List (Str × Int)
deriving DecidableEq, Repr

/-- `Parse.__init__` (lines 107-120). -/
def initState : ParseState :=
  { err := [], ln := 0, pc := 0, b1 := [], b2 := [], b3 := [], long := [],
    label := [], mne := [], oper := [], bytes := 0, comment := [],
    errors := 0, symbols := [] }

/-- The comma-splitting loop of the `DB` branch (lines 343-362): split the
operand list on commas, ignoring commas between single quotes, and turn
the single quotes into double quotes. -/
def dbSplitAux : Str → Bool → Bool → Str → List Str → List Str
  | [], _, _, temp, acc => acc ++ [temp]
  | a :: rest, oq, cq, temp, acc =>
    let (oq, cq, temp, acc) :=
      if a == '\'' && oq == false then (true, cq, temp ++ ['"'], acc)
      else if a == '\'' && oq == true then (oq, true, temp ++ ['"'], acc)
      else if a == ',' && oq == false then (oq, cq, ([] : Str), acc ++ [temp])
      else (oq, cq, temp ++ [a], acc)
    let (oq, cq) := if oq == true && cq == true then (false, false) else (oq, cq)
    dbSplitAux rest oq cq temp acc

/-- Entry point of the comma-splitting loop of the `DB` branch. -/
def dbSplit (line : Str) : List Str := dbSplitAux line false false [] []

/-- The string-data inner loop of the `DB` branch (lines 366-369): every
character except the double quotes contributes `Op_byte("'" + char + "'")`. -/
def dbStringBytes (op : Str) : Str :=
  op.foldl (fun acc ch => if ch != '"' then acc ++ Op_byte ['\'', ch, '\''] else acc) []

/-- `op_type == 'b'` branch (lines 340-386). -/
def Pass1B (st : ParseState) (line : Str) : ParseState :=
  if st.mne == ("DB").toList then
    let linesp := dbSplit line
    let st := linesp.foldl
      (fun st op0 =>
        let op := pyLstrip op0
        if pyFind op ['"'] == 0 then
          { st with long := st.long ++ dbStringBytes op }
        else
          let b := Op_byte op
          if b == ("Error").toList then { st with b1 := ['?', '?'] }
          else { st with long := st.long ++ b })
      st
    { st with oper := line, bytes := 1 }
  else
    let b := Op_byte line
    let st :=
      if b == ("Error").toList then { st with b2 := ['?', '?'] }
      else { st with b2 := b }
    { st with bytes := 2, oper := line }

/-- `op_type == 'r'` branch (lines 388-401). -/
def Pass1R (st : ParseState) (line : Str) : Option ParseState := do
  let sss := Op_reg line
  let st ←
    if sss == -1 then
      pure { st with err := ("*R*").toList, errors := st.errors + 1 }
    else do
      let v ← pyInt 16 st.b1
      if st.mne == ("DCR").toList || st.mne == ("INR").toList then
        pure { st with b1 := pyZfill 2 (pyHexU (v + 8 * sss)) }
      else
        pure { st with b1 := pyZfill 2 (pyHexU (v + sss)) }
  pure { st with oper := line, bytes := 1 }

/-- `op_type == 'a'` branch (lines 403-452), covering the `DW`, `DS`,
`ORG` directives and plain address operands. -/
def Pass1A (st : ParseState) (line : Str) : Option ParseState := do
  let a := Op_addr line
  if st.mne == ("DW").toList then
    let st :=
      if a == ("Error").toList then
        { st with err := ("*V*").toList, errors := st.errors + 1, b2 := ['0', '0'] }
      else if a == ("Label").toList then
        { st with b1 := ['?', '?'], b2 := ['?', '?'] }
      else
        { st with b1 := pySlice a 2 4, b2 := pySliceTo a 2 }
    pure { st with oper := pyUpper line, bytes := 2 }
  else if st.mne == ("DS").toList then
    let st ←
      if a == ("Error").toList then
        pure { st with err := ("*V*").toList, errors := st.errors + 1 }
      else do
        let v ← pyInt 16 a
        pure { st with b1 := [], pc := st.pc + v.toNat }
    pure { st with bytes := 0, oper := line }
  else if st.mne == ("ORG").toList then
    let st ←
      if a == ("Error").toList then
        pure { st with err := ("*V*").toList, errors := st.errors + 1 }
      else do
        let v ← pyInt 16 a
        pure { st with b1 := [], pc := v.toNat }
    pure { st with bytes := 0, oper := line }
  else
    let st :=
      if a == ("Error").toList then
        { st with err := ("*V*").toList, errors := st.errors + 1, b2 := ['0', '0'], b3 := ['0', '0'] }
      else if a == ("Label").toList then
        { st with b2 := ['?', '?'], b3 := ['?', '?'] }
      else
        { st with b2 := pySlice a 2 4, b3 := pySliceTo a 2 }
    pure { st with oper := pyUpper line, bytes := 3 }

/-- `op_type == 'p'` branch (lines 454-463). -/
def Pass1P (st : ParseState) (line : Str) : Option ParseState := do
  let rp := Op_regpr line
  let st ←
    if rp == -1 then
      pure { st with err := ("*R*").toList, errors := st.errors + 1 }
    else do
      let v ← pyInt 16 st.b1
      pure { st with b1 := pyZfill 2 (pyHexU (v + 16 * rp)) }
  pure { st with oper := line, bytes := 1 }

/-- `op_type == 'd'` branch (lines 465-474). -/
def Pass1D (st : ParseState) (line : Str) : Option ParseState := do
  let rp := Op_regpr2 line
  let st ←
    if rp == -1 then
      pure { st with err := ("*R*").toList, errors := st.errors + 1 }
    else do
      let v ← pyInt 16 st.b1
      pure { st with b1 := pyZfill 2 (pyHexU (v + 16 * rp)) }
  pure { st with oper := line, bytes := 1 }

/-- `op_type == 'w'` branch (lines 476-503). -/
def Pass1W (st : ParseState) (line : Str) : Option ParseState := do
  let line_rp_d := pySplitChar ',' line
  let rp := Op_regpr (line_rp_d.getD 0 [])
  let st ←
    if rp == -1 then
      pure { st with err := ("*R*").toList, errors := st.errors + 1, b2 := ['0', '0'], b3 := ['0', '0'] }
    else do
      let v ← pyInt 16 st.b1
      pure { st with b1 := pyZfill 2 (pyHexU (v + 16 * rp)) }
  let a :=
    if line_rp_d.length > 1 then Op_addr (pyLstrip (line_rp_d.getD 1 []))
    else ("Error").toList
  let st :=
    if a == ("Error").toList then
      { st with err := ("*V*").toList, errors := st.errors + 1, b2 := ['0', '0'], b3 := ['0', '0'] }
    else if a == ("Label").toList then
      { st with b2 := ['?', '?'], b3 := ['?', '?'] }
    else
      { st with b2 := pySlice a 2 4, b3 := pySliceTo a 2 }
  pure { st with oper := line, bytes := 3 }

/-- `op_type == 'm'` branch (lines 505-520). -/
def Pass1M (st : ParseState) (line : Str) : Option ParseState := do
  let line_rr := pySplitChar ',' line
  let st ←
    if line_rr.length != 2 then
      pure { st with err := ("*R*").toList, errors := st.errors + 1 }
    else
      let ddd := Op_reg (line_rr.getD 0 [])
      let sss := Op_reg (pyLstrip (line_rr.getD 1 []))
      if ddd == -1 || sss == -1 || (ddd == 6 && sss == 6) then
        pure { st with err := ("*R*").toList, errors := st.errors + 1 }
      else do
        let v ← pyInt 16 st.b1
        pure { st with b1 := pyZfill 2 (pyHexU (v + 8 * ddd + sss)) }
  pure { st with oper := line, bytes := 1 }

/-- `op_type == 'v'` branch (lines 522-543).  The local `b` is only bound
when a second operand exists; the `elif b == 'Error'` on line 535 raises
`NameError` (modelled as `none`) when it is unbound. -/
def Pass1V (st : ParseState) (line : Str) : Option ParseState := do
  let line_rd := pySplitChar ',' line
  let ddd := Op_reg (line_rd.getD 0 [])
  let bOpt : Option Str :=
    if line_rd.length > 1 then some (Op_byte (pyLstrip (line_rd.getD 1 []))) else none
  let st :=
    if line_rd.length > 1 then st
    else { st with err := ("*V*").toList, errors := st.errors + 1, b2 := ['0', '0'] }
  let st ←
    if ddd == -1 then
      pure { st with err := ("*R*").toList, errors := st.errors + 1, b2 := ['0', '0'] }
    else
      match bOpt with
      | none => none
      | some b => do
        let v ← pyInt 16 st.b1
        if b == ("Error").toList then
          pure { st with b1 := pyZfill 2 (pyHexU (v + 8 * ddd)), b2 := ['?', '?'] }
        else
          pure { st with b1 := pyZfill 2 (pyHexU (v + 8 * ddd)), b2 := b }
  pure { st with oper := line, bytes := 2 }

/-- `op_type == 'i'` branch (lines 545-554): RST.  Note that the error
counter is NOT incremented when `*V*` is set here, unlike every other
error site in the source.  `int(i[1])` raises (modelled `none`) when that
character is not a decimal digit. -/
def Pass1I (st : ParseState) (line : Str) : Option ParseState := do
  let i := Op_byte line
  let ih := i.getD 0 ' '
  let st ←
    if i == ("Error").toList || ih != '0' then
      pure { st with err := ("*V*").toList }
    else do
      let v ← pyInt 16 st.b1
      let d ← pyInt 10 [i.getD 1 ' ']
      pure { st with b1 := pyZfill 2 (pyHexU (v + 8 * d)) }
  pure { st with oper := line, bytes := 1 }

/-- `op_type == 'e'` branch (lines 556-622): EQU expressions.  The guard
`if p1 == 0: p1 = 'Error'` on line 594 compares the string `p1` with the
integer 0, which is always `False` in Python, so the division below it can
raise `ZeroDivisionError` (modelled as `none`). -/
def Pass1E (st : ParseState) (line : Str) : Option ParseState := do
  let a ←
    if pyFind line ['+'] > 0 then
      let operands := pySplitChar '+' line
      let p0 := Op_addr (operands.getD 0 [])
      let p1 := Op_addr (operands.getD 1 [])
      if p0 == ("Error").toList || p1 == ("Error").toList then pure (("Error").toList)
      else if p0 == ("Label").toList || p1 == ("Label").toList then pure (("Label").toList)
      else do
        let v0 ← pyInt 16 p0
        let v1 ← pyInt 16 p1
        pure (pyZfill 4 (pyHexL (v0 + v1)))
    else if pyFind line ['-'] > 0 then
      let operands := pySplitChar '-' line
      let p0 := Op_addr (operands.getD 0 [])
      let p1 := Op_addr (operands.getD 1 [])
      if p0 == ("Error").toList || p1 == ("Error").toList then pure (("Error").toList)
      else if p0 == ("Label").toList || p1 == ("Label").toList then pure (("Label").toList)
      else do
        let v0 ← pyInt 16 p0
        let v1 ← pyInt 16 p1
        pure (pyZfill 4 (pyHexL (v0 - v1)))
    else if pyFind line ['*'] > 0 then
      let operands := pySplitChar '*' line
      let p0 := Op_addr (operands.getD 0 [])
      let p1 := Op_addr (operands.getD 1 [])
      if p0 == ("Error").toList || p1 == ("Error").toList then pure (("Error").toList)
      else if p0 == ("Label").toList || p1 == ("Label").toList then pure (("Label").toList)
      else do
        let v0 ← pyInt 16 p0
        let v1 ← pyInt 16 p1
        pure (pyZfill 4 (pyHexL (v0 * v1)))
    else if pyFind line ['/'] > 0 then
      let operands := pySplitChar '/' line
      let p0 := Op_addr (operands.getD 0 [])
      let p1a := Op_addr (operands.getD 1 [])
      let p1 := if pyEqStrInt p1a 0 then ("Error").toList else p1a
      if p0 == ("Error").toList || p1 == ("Error").toList then pure (("Error").toList)
      else if p0 == ("Label").toList || p1 == ("Label").toList then pure (("Label").toList)
      else do
        let v0 ← pyInt 16 p0
        let v1 ← pyInt 16 p1
        let q ← pyIntDiv v0 v1
        pure (pyZfill 4 (pyHexL q))
    else
      pure (Op_addr line)
  if a == ("Error").toList then
    pure { st with err := ("*V*").toList, errors := st.errors + 1, oper := pyUpper line }
  else if a == ("Label").toList then
    pure { st with b1 := ['?', '?'], b2 := ['?', '?'], oper := pyUpper line }
  else do
    let v ← pyInt 16 a
    pure { st with symbols := st.symbols.dropLast ++ [(st.label, v)],
                   oper := pyUpper line, b1 := [] }

/-- Mnemonic lookup and operand-type dispatch (lines 316-336 and the
branch heads).  The mnemonic is the first whitespace token, uppercased. -/
def Pass1Mne (st : ParseState) (line : Str) : Option ParseState :=
  match pySplitWs line with
  | [] => none
  | tok :: _ =>
    let mne := pyUpper tok
    let st := { st with mne := mne }
    let line :=
      if line.length > mne.length + 1 then pyRstrip (pyLstrip (line.drop (mne.length + 1)))
      else []
    let opcodes := opCode mne
    if opcodes == ("Error").toList then
      some { st with err := ("*O*").toList, errors := st.errors + 1 }
    else
      let opcode := pySliceTo opcodes 2
      let op_type := opcodes.getD 2 ' '
      let st := { st with b1 := opcode }
      if op_type == '-' then some { st with bytes := 1 }
      else if op_type == 'b' then some (Pass1B st line)
      else if op_type == 'r' then Pass1R st line
      else if op_type == 'a' then Pass1A st line
      else if op_type == 'p' then Pass1P st line
      else if op_type == 'd' then Pass1D st line
      else if op_type == 'w' then Pass1W st line
      else if op_type == 'm' then Pass1M st line
      else if op_type == 'v' then Pass1V st line
      else if op_type == 'i' then Pass1I st line
      else if op_type == 'e' then Pass1E st line
      else some st

/-- Label handling (lines 292-312): a `:` outside a quoted literal ends a
label (truncated to six characters); a duplicate name sets `*D*` and bumps
the error count once per earlier occurrence; the `(label, pc)` pair is
appended to the symbol list unconditionally. -/
def Pass1Label (st : ParseState) (line0 : Str) : Option ParseState :=
  let pos0 := pyFind line0 [':']
  let posq := pyFind line0 ['\'']
  let pos1 := if pos0 > 0 && posq > 0 && pos0 > posq then (-1 : Int) else pos0
  if pos1 > 0 then
    let (line, pos) :=
      if pos1 > 6 then (line0.take 6 ++ line0.drop pos1.toNat, (6 : Int))
      else (line0, pos1)
    let label := line.take pos.toNat
    let line := pyLstrip (line.drop (pos.toNat + 1))
    let dups := (st.symbols.filter (fun sy => sy.1 == label)).length
    let st :=
      { st with label := label,
                err := if dups > 0 then ("*D*").toList else st.err,
                errors := st.errors + dups,
                symbols := st.symbols ++ [(label, (st.pc : Int))] }
    if line.length == 0 then some st else Pass1Mne st line
  else
    Pass1Mne st line0

/-- `Parse.Pass1` (lines 260-622): reset the per-line attributes, strip
the line, split off the comment at the first `;`, then process label,
mnemonic and operands.  `none` models an uncaught Python exception. -/
def Pass1 (st0 : ParseState) (line0 : Str) : Option ParseState :=
  let st :=
    { st0 with err := [], b1 := [], b2 := [], b3 := [], long := [],
               label := [], mne := [], oper := [], bytes := 0, comment := [] }
  let line := (pyLstrip line0).filter (fun c => c != '\n')
  let st := { st with ln := st.ln + 1 }
  if line.length == 0 then some st
  else
    let pos := pyFind line [';']
    let st := if pos ≥ 0 then { st with comment := line.drop pos.toNat } else st
    if pos == 0 then some st
    else
      let line := if pos ≥ 0 then pyRstrip (line.take pos.toNat) else line
      Pass1Label st line

/-! ### Pass 1 driver (module-level loop, lines 641-723) -/

/-- The header line written to the temp listing (line 649). -/
def headerLine : Str :=
  ("ERR LINE  ADDR B1 B2 B3   *** ASM80 ASSEMBLER VER 1.0 ***").toList ++ ['\n']

/-- The label/mnemonic/operand/comment tail of a listing row
(lines 658-666). -/
def lmocOf (st : ParseState) : Str :=
  if st.label != [] || st.mne != [] then
    let label := if st.label != [] then st.label ++ [':'] else []
    pyLjust 8 label ++ pyLjust 5 st.mne ++ pyLjust 11 st.oper ++ st.comment ++ ['\n']
  else
    st.comment ++ ['\n']

/-- The `while len(ll) > 6` continuation-row loop of the long-data branch
(lines 700-705), fuel-driven; fuel `ll.length` always suffices. -/
def longLoopCore : Nat → Nat → Str → List Str → Nat × Str × List Str
  | 0, pc, ll, acc => (pc, ll, acc)
  | fuel + 1, pc, ll, acc =>
    if ll.length > 6 then
      let line := pyRjust 14 (pyZfill 4 (pyHexU (pc : Int))) ++ [' ']
        ++ pySliceTo ll 2 ++ [' '] ++ pySlice ll 2 4 ++ [' '] ++ pySlice ll 4 6 ++ ['\n']
      longLoopCore fuel (pc + 3) (ll.drop 6) (acc ++ [line])
    else (pc, ll, acc)

/-- One iteration of the Pass 1 driver loop (lines 654-720): run `Pass1`
on the source line and produce the listing row(s) written for it, updating
the program counter. -/
def driveLine (st0 : ParseState) (src : Str) : Option (ParseState × List Str) := do
  let st ← Pass1 st0 src
  let lmoc := lmocOf st
  if st.long == [] then
    let (a, st) :=
      if st.b1.length != 0 then
        (pyZfill 4 (pyHexU (st.pc : Int)), { st with pc := st.pc + st.bytes })
      else ([' ', ' ', ' ', ' '], st)
    let list_line := pyLjust 4 st.err ++ pyRjust 4 (natDecStr st.ln) ++ [' ', ' '] ++ a ++ [' ']
      ++ pyLjust 3 st.b1 ++ pyLjust 3 st.b2 ++ pyLjust 5 st.b3 ++ lmoc
    pure (st, [list_line])
  else
    let a := pyZfill 4 (pyHexU (st.pc : Int))
    let b1 := pySliceTo st.long 2
    let b2 := pySlice st.long 2 4
    let (b3, byte_count) :=
      if st.long.length ≥ 6 then (pySlice st.long 4 6, 3) else (([' ', ' '] : Str), 2)
    let st := { st with pc := st.pc + byte_count }
    let line1 := pyLjust 4 st.err ++ pyRjust 4 (natDecStr st.ln) ++ [' ', ' '] ++ a ++ [' ']
      ++ pyLjust 3 b1 ++ pyLjust 3 b2 ++ pyLjust 5 b3 ++ lmoc
    let ll := if st.long.length > 6 then st.long.drop 6 else []
    let (pc2, ll, contLines) := longLoopCore ll.length st.pc ll []
    let st := { st with pc := pc2 }
    let tb1 := if ll.length ≥ 2 then pySliceTo ll 2 else ([' ', ' '] : Str)
    let tb2 := if ll.length ≥ 4 then pySlice ll 2 4 else ([' ', ' '] : Str)
    let tb3 := if ll.length == 6 then pySlice ll 4 6 else ([' ', ' '] : Str)
    let tCount : Nat :=
      if ll.length == 6 then 3
      else if ll.length ≥ 4 then 2
      else if ll.length ≥ 2 then 1
      else byte_count
    if tb1 != ([' ', ' '] : Str) then
      let line2 := pyRjust 14 (pyZfill 4 (pyHexU (st.pc : Int))) ++ [' ']
        ++ tb1 ++ [' '] ++ tb2 ++ [' '] ++ tb3 ++ ['\n']
      pure ({ st with pc := st.pc + tCount }, [line1] ++ contLines ++ [line2])
    else
      pure (st, [line1] ++ contLines)

/-- The whole Pass 1 driver: fold `driveLine` over the source lines,
starting from a fresh parser and the header row. -/
def pass1Run (src : List Str) : Option (ParseState × List Str) :=
  src.foldlM
    (fun (acc : ParseState × List Str) line => do
      let (st, outs) ← driveLine acc.1 line
      pure (st, acc.2 ++ outs))
    (initState, [headerLine])

/-! ### Pass 2 (module-level loop, lines 725-848) -/

/-- The symbol-search loops of Pass 2 (lines 742-750, 787-790, 811-814):
`for sym in parser.symbols: if sym[0] == label: ... ; continue`.  The
`continue` does not leave the loop, so every matching entry overwrites the
previous result and the LAST matching entry wins. -/
def lastMatch (symbols : List (Str × Int)) (label : Str) : Option Int :=
  symbols.foldl (fun acc sy => if sy.1 == label then some sy.2 else acc) none

/-- One iteration of the Pass 2 loop (lines 729-824): fix up the `?? ??`
address placeholder and the single `??` byte placeholder in one listing
row, threading the symbol table and the error count.  `none` models an
uncaught Python exception (NameError on an unbound local, ValueError from
`symbols.index`, IndexError on an empty token list, ZeroDivisionError). -/
def pass2Line (symbols0 : List (Str × Int)) (errors0 : Nat) (line0 : Str) :
    Option (Str × List (Str × Int) × Nat) := do
  let s1 := pyFind line0 ['?', '?', ' ', '?', '?']
  let (line, symbols, errors) ←
    if s1 > 0 then do
      let sN := s1.toNat
      let c := pyFind line0 [';']
      let ln := if c > 0 then pyRstrip (pySliceTo line0 c.toNat) else line0
      let mne_lab := pySplitWs (pyLstrip (ln.drop (sN + 5)))
      if mne_lab.length == 5 && mne_lab.contains (("EQU").toList) then do
        let p0a := Op_addr (mne_lab.getD 2 [])
        let p1a := Op_addr (mne_lab.getD 4 [])
        let p0 :=
          if p0a == ("Label").toList then
            match lastMatch symbols0 (mne_lab.getD 2 []) with
            | some v => pyZfill 4 (pyHexL v)
            | none => p0a
          else p0a
        let p1 :=
          if p1a == ("Label").toList then
            match lastMatch symbols0 (mne_lab.getD 4 []) with
            | some v => pyZfill 4 (pyHexL v)
            | none => p1a
          else p1a
        if p0 == ("Label").toList || p1 == ("Label").toList then
          let line := ("*U*").toList ++ line0.drop 3
          let line := pySliceTo line sN ++ ("-- --").toList ++ line.drop (sN + 5)
          pure (line, symbols0, errors0 + 1)
        else do
          let t3 := mne_lab.getD 3 []
          let a ← (
            if t3 == ['+'] then do
              let v0 ← pyInt 16 p0
              let v1 ← pyInt 16 p1
              pure (v0 + v1)
            else if t3 == ['-'] then do
              let v0 ← pyInt 16 p0
              let v1 ← pyInt 16 p1
              pure (v0 - v1)
            else if t3 == ['*'] then do
              let v0 ← pyInt 16 p0
              let v1 ← pyInt 16 p1
              pure (v0 * v1)
            else if t3 == ['/'] then
              -- line 757: `p1 != 0` compares a str with an int, always True
              if pyEqStrInt p1 0 then none
              else do
                let v0 ← pyInt 16 p0
                let v1 ← pyInt 16 p1
                pyDivFloat v0 v1
            else none : Option Int)
          let label := (mne_lab.getD 0 []).dropLast
          match symbols0.findIdx? (fun sy => sy == (label, (0 : Int))) with
          | none => none
          | some i =>
            let symbols := symbols0.set i (label, a)
            let line := pySliceTo line0 8 ++ List.replicate 15 ' ' ++ line0.drop 23
            pure (line, symbols, errors0)
      else do
        match mne_lab.getLast? with
        | none => none
        | some lab0 =>
          let plusParts : Option (Str × Str) :=
            if pyFind lab0 ['+'] > 0 then
              let lp := pySplitChar '+' lab0
              some (lp.getD 0 [], lp.getD 1 [])
            else none
          let (label, offset) : Str × Int :=
            match plusParts with
            | some (l0, l1) =>
              match pyInt 10 l1 with
              | some v => (l0, v)
              | none => (l0 ++ l1, 0)
            | none => (lab0, 0)
          let minusStep : Option (Str × Int) :=
            if pyFind label ['-'] > 0 then
              let lm := pySplitChar '-' label
              match pyInt 10 (lm.getD 1 []) with
              | some v => some (lm.getD 0 [], -v)
              | none =>
                -- line 785 reuses `label_plus` from the '+' block; if no
                -- '+' was seen, that name is unbound and Python raises
                match plusParts with
                | some (l0, l1) => some (l0 ++ l1, offset)
                | none => none
            else some (label, offset)
          match minusStep with
          | none => none
          | some (label, offset) =>
            match lastMatch symbols0 label with
            | none =>
              let line := ("*U*").toList ++ line0.drop 3
              let line := pySliceTo line sN ++ ("-- --").toList ++ line.drop (sN + 5)
              pure (line, symbols0, errors0 + 1)
            | some v =>
              let a := pyZfill 4 (pyHexU (v + offset))
              let w := pySlice a 2 4 ++ [' '] ++ pySliceTo a 2
              pure (pySliceTo line0 sN ++ w ++ line0.drop (sN + 5), symbols0, errors0)
    else
      pure (line0, symbols0, errors0)
  let s2 := pyFind line ['?', '?']
  if s2 > 0 then do
    let sN := s2.toNat
    let c := pyFind line [';']
    let ln := if c > 0 then pyRstrip (pySliceTo line c.toNat) else line
    let mne_lab := pySplitWs (pyLstrip (ln.drop (sN + 5)))
    match mne_lab.getLast? with
    | none => none
    | some label =>
      match lastMatch symbols label with
      | none =>
        pure ((("*U*").toList ++ line.drop 3, symbols, errors + 1))
      | some v =>
        let a := pyZfill 4 (pyHexU v)
        if mne_lab.any (fun s0 => containsSub s0 (("HIGH").toList)) then
          pure ((pySliceTo line sN ++ pySliceTo a 2 ++ [' '] ++ line.drop (sN + 3),
                 symbols, errors))
        else
          pure ((pySliceTo line sN ++ pySlice a 2 4 ++ [' '] ++ line.drop (sN + 3),
                 symbols, errors))
  else
    pure ((line, symbols, errors))

/-- Lexicographic order on character lists (Python `str` comparison). -/
def strLt : Str → Str → Bool
  | [], [] => false
  | [], _ :: _ => true
  | _ :: _, [] => false
  | a :: as, b :: bs => if a < b then true else if b < a then false else strLt as bs

/-- Python tuple comparison `(name, value) <= (name, value)`. -/
def symLe (x y : Str × Int) : Bool :=
  strLt x.1 y.1 || (x.1 == y.1 && decide (x.2 ≤ y.2))

/-- Ordered insertion used by `sortSymbols`. -/
def insertSym (x : Str × Int) : List (Str × Int) → List (Str × Int)
  | [] => [x]
  | y :: ys => if symLe x y then x :: y :: ys else y :: insertSym x ys

/-- `parser.symbols.sort()` (line 829): ascending sort by (name, value). -/
def sortSymbols (l : List (Str × Int)) : List (Str × Int) := l.foldr insertSym []

/-- The symbol-table rows of the trailer (lines 830-839): five entries per
written line, each `name.rjust(6) + ' ' + hex(value).zfill(4) + 4 spaces`. -/
def symbolChunk : List (Str × Int) → Str → Nat → Str
  | [], line, _ => '\n' :: line
  | sy :: rest, line, pos =>
    let line := line ++ pyRjust 6 sy.1 ++ [' '] ++ pyZfill 4 (pyHexU sy.2) ++ [' ', ' ', ' ', ' ']
    let pos := pos + 1
    if pos > 5 then ('\n' :: line) ++ symbolChunk rest [] 1
    else symbolChunk rest line pos

/-- The 76-dash separator written on lines 827 and 843. -/
def dashesLine : Str :=
  ("----------------------------------------------------------------------------").toList

/-- The text written after the Pass 2 loop (lines 827-846): separator,
sorted symbol table, separator, error-code legend, total error count. -/
def trailerText (symbols : List (Str × Int)) (errors : Nat) : Str :=
  ('\n' :: dashesLine)
  ++ ("\nSymbols:").toList
  ++ symbolChunk (sortSymbols symbols) [] 1
  ++ ('\n' :: dashesLine)
  ++ ("\nError codes: *O*=undefined opcode, *V*=illegal value, *R*=illegal register,").toList
  ++ ("\n             *U*=undefined symbol, *D*=duplicate symbol").toList
  ++ ("\nTotal Errors = ").toList ++ natDecStr errors ++ ['\n']

/-- Split a character stream into the lines a Python `for line in file`
iteration would yield (each keeping its trailing newline). -/
def splitLinesAux : Str → Str → List Str
  | [], cur => if cur.isEmpty then [] else [cur]
  | c :: rest, cur =>
    if c == '\n' then (cur ++ ['\n']) :: splitLinesAux rest []
    else splitLinesAux rest (cur ++ [c])

/-- Entry point of `splitLinesAux`. -/
def splitLines (s : Str) : List Str := splitLinesAux s []

/-- The whole Pass 2: run `pass2Line` over every temp-listing row and
append the trailer, yielding the final `.lst` lines, the final symbol
table and the final error count. -/
def pass2Run (symbols0 : List (Str × Int)) (errors0 : Nat) (tmpLines : List Str) :
    Option (List Str × List (Str × Int) × Nat) := do
  let (outs, symbols, errors) ← tmpLines.foldlM
    (fun (acc : List Str × List (Str × Int) × Nat) line => do
      let (l, sy, er) ← pass2Line acc.2.1 acc.2.2 line
      pure (acc.1 ++ [l], sy, er))
    (([] : List Str), symbols0, errors0)
  pure (outs ++ splitLines (trailerText symbols errors), symbols, errors)

/-! ### Intel HEX emission (module-level, lines 851-890) -/

/-- The checksum construction shared by the three record shapes
(lines 872-884): `format(255 - int(sum_hex[-2:], 16) + 1, 'X').zfill(2)`
applied to `sum_hex = format(sumv, 'X')`.  When `sumv` is a multiple of
256 this yields the three-character string `"100"`. -/
def hexChecksum (sumv : Int) : Option Str := do
  let sum_hex := pyHexU sumv
  let t ← pyInt 16 (takeLast 2 sum_hex)
  pure (pyZfill 2 (pyHexU (255 - t + 1)))

/-- A one-data-byte record (lines 871-875).  The length byte used in the
record is 01 and the checksum sum also uses 1. -/
def mkRecord1 (addr b1 : Str) : Option Str := do
  let aH ← pyInt 16 (pySliceTo addr 2)
  let aL ← pyInt 16 (pySlice addr 2 4)
  let v1 ← pyInt 16 b1
  let ck ← hexChecksum (1 + aH + aL + v1)
  pure ((":01").toList ++ addr ++ ("00").toList ++ b1 ++ ck)

/-- A two-data-byte record (lines 876-880).  The record's length byte is
02, but the checksum sum still uses the constant 1 from the source. -/
def mkRecord2 (addr b1 b2 : Str) : Option Str := do
  let aH ← pyInt 16 (pySliceTo addr 2)
  let aL ← pyInt 16 (pySlice addr 2 4)
  let v1 ← pyInt 16 b1
  let v2 ← pyInt 16 b2
  let ck ← hexChecksum (1 + aH + aL + v1 + v2)
  pure ((":02").toList ++ addr ++ ("00").toList ++ b1 ++ b2 ++ ck)

/-- A three-data-byte record (lines 881-885).  The record's length byte is
03, but the checksum sum still uses the constant 1 from the source. -/
def mkRecord3 (addr b1 b2 b3 : Str) : Option Str := do
  let aH ← pyInt 16 (pySliceTo addr 2)
  let aL ← pyInt 16 (pySlice addr 2 4)
  let v1 ← pyInt 16 b1
  let v2 ← pyInt 16 b2
  let v3 ← pyInt 16 b3
  let ck ← hexChecksum (1 + aH + aL + v1 + v2 + v3)
  pure ((":03").toList ++ addr ++ ("00").toList ++ b1 ++ b2 ++ b3 ++ ck)

/-- The record-emitting loop over the final listing (lines 857-886):
stop at the `---` separator, skip short rows and rows whose address field
is not hex, otherwise emit a 1-, 2- or 3-byte record.  Returns the records
written and whether the loop finished normally (`false` when an uncaught
exception interrupts it after the records written so far). -/
def hexLoop : List Str → List Str × Bool
  | [] => ([], true)
  | line :: rest =>
    if pySliceTo line 3 == ['-', '-', '-'] then ([], true)
    else if line.length < 22 then hexLoop rest
    else
      let addr := pySlice line 10 14
      match pyInt 16 addr with
      | none => hexLoop rest
      | some _ =>
        let b1 := pySlice line 15 17
        let b2 := pySlice line 18 20
        let b3 := pySlice line 21 23
        let mkd :=
          if b2 == [' ', ' '] then mkRecord1 addr b1
          else if b3 == [' ', ' '] then mkRecord2 addr b1 b2
          else mkRecord3 addr b1 b2 b3
        match mkd with
        | none => ([], false)
        | some r =>
          let (rs, ok) := hexLoop rest
          (r :: rs, ok)

/-- Outcome of the HEX-emission stage. -/
inductive HexOut where
  | noFile : HexOut
  | partialFile : List Str → HexOut
  | file : List Str → HexOut
deriving DecidableEq, Repr

/-- The HEX-emission stage (lines 851-890): the whole stage is guarded by
`if parser.errors == 0`; when it runs, the records are followed by the
end-of-file record `:00000001FF`.  `partialFile` captures a run whose loop
raised after writing some records. -/
def hexRun (errors : Nat) (listing : List Str) : HexOut :=
  if errors = 0 then
    match hexLoop listing with
    | (rs, true) => HexOut.file (rs ++ [(":00000001FF").toList])
    | (rs, false) => HexOut.partialFile rs
  else HexOut.noFile

/-- The three formal outputs of one assembly run. -/
structure AsmOut where
  listing : List Str
  symbols : List (Str × Int)
  errors : Nat
  hexOut : HexOut
deriving DecidableEq, Repr

/-- The complete pipeline: Pass 1 over the source lines, Pass 2 over the
temp listing, then the gated HEX emission. -/
def assemble (src : List Str) : Option AsmOut := do
  let (st, tmp) ← pass1Run src
  let (lst, symbols, errors) ← pass2Run st.symbols st.errors tmp
  pure { listing := lst, symbols := symbols, errors := errors,
         hexOut := hexRun errors lst }

/-- The final `.lst` rows of a run. -/
def asmListing (src : List Str) : Option (List Str) := (assemble src).map (fun r => r.listing)

/-- The HEX outcome of a run. -/
def asmHex (src : List Str) : Option HexOut := (assemble src).map (fun r => r.hexOut)

/-- The final error count of a run. -/
def asmErrors (src : List Str) : Option Nat := (assemble src).map (fun r => r.errors)

/-- Parse a hex string into bytes, two digits per byte; `none` when the
length is odd or a character is not a hex digit.  Used to state the
Intel-HEX checksum property. -/
def pairBytes : Str → Option (List Nat)
  | [] => some []
  | [_] => none
  | a :: b :: rest => do
    let hi ← digitVal 16 a
    let lo ← digitVal 16 b
    let r ← pairBytes rest
    pure ((hi * 16 + lo) :: r)

/-! ### Test programs used by the claim theorems -/

/-- A program defining the same label on two lines and then referencing it. -/
def progDup : List Str := [("L: NOP").toList, ("L: NOP").toList, ("JMP L").toList]

/-- A single line whose immediate-byte operand is an undefined symbol. -/
def progByteU : List Str := [("MVI A,FOO").toList]

/-- A single line whose address operand is an undefined symbol. -/
def progAddrU : List Str := [("JMP FOO").toList]

/-- A single RST line with an out-of-range operand whose `*V*` does not
bump the error counter. -/
def progRst99 : List Str := [("RST 99").toList]

/-- A `DB` line with an out-of-range constant. -/
def progDb256 : List Str := [("DB 256").toList]

/-- A `DB` line with an in-range constant. -/
def progDb255 : List Str := [("DB 255").toList]

/-- An `EQU` with an unresolvable expression after a one-byte instruction,
so the program counter is 1 at the `EQU` line. -/
def progEquFwd : List Str := [("NOP").toList, ("V: EQU X").toList]

/-- An `EQU` with a resolvable expression after a one-byte instruction. -/
def progEquVal : List Str := [("NOP").toList, ("V: EQU 5").toList]

/-- The source line `MVI A,';'` — a semicolon inside a quoted literal. -/
def lineSemiLit : Str := ("MVI A,").toList ++ ['\'', ';', '\'']

/-! ### Hex-digit output shape of the literal parsers -/

/-- A hexadecimal digit character. -/
def isHexChar (c : Char) : Bool := c.isDigit || ('A' ≤ c && c ≤ 'F') || ('a' ≤ c && c ≤ 'f')

/-- Every character of the string is a hexadecimal digit. -/
def isHexStr (s : Str) : Bool := s.all isHexChar

lemma hexDigitU_isHex {n : Nat} (h : n < 16) : isHexChar (hexDigitU n) = true := by
  interval_cases n <;> decide

lemma natDigitsCore_hexU (fuel : Nat) :
    ∀ n : Nat, isHexStr (natDigitsCore hexDigitU fuel 16 n) = true := by
  induction fuel with
  | zero => intro n; rfl
  | succ fuel ih =>
    intro n
    simp only [natDigitsCore]
    split
    · next h => simp [isHexStr, hexDigitU_isHex h]
    · next h =>
      have h16 : n % 16 < 16 := Nat.mod_lt _ (by norm_num)
      have h1 := ih (n / 16)
      simp only [isHexStr] at h1 ⊢
      rw [List.all_append]
      simp [h1, hexDigitU_isHex h16]

lemma natHexU_hex (n : Nat) : isHexStr (natHexU n) = true := natDigitsCore_hexU (n + 1) n

lemma pyHexU_hex {i : Int} (h : 0 ≤ i) : isHexStr (pyHexU i) = true := by
  unfold pyHexU
  rw [if_neg (by omega)]
  exact natHexU_hex _

lemma replicate_zero_hex (k : Nat) : isHexStr (List.replicate k '0') = true := by
  induction k with
  | zero => rfl
  | succ k ih =>
    simp only [List.replicate_succ, isHexStr, List.all_cons, Bool.and_eq_true] at *
    exact ⟨by decide, ih⟩

lemma pyZfill_hex (w : Nat) (s : Str) (h : isHexStr s = true) :
    isHexStr (pyZfill w s) = true := by
  unfold pyZfill
  split
  · exact h
  · split
    · next rest => simp [isHexStr, isHexChar] at h
    · next rest => simp [isHexStr, isHexChar] at h
    · have hr := replicate_zero_hex (w - s.length)
      simp only [isHexStr] at h hr ⊢
      rw [List.all_append, h, hr]
      rfl

lemma byteHexOf_ok (dec : Int) :
    byteHexOf dec = ("Error").toList ∨ isHexStr (byteHexOf dec) = true := by
  unfold byteHexOf
  split
  · exact Or.inl rfl
  · next h =>
    right
    refine pyZfill_hex _ _ (pyHexU_hex ?_)
    simp only [Bool.or_eq_true, decide_eq_true_eq] at h
    omega

lemma addrHexOf_ok (dec : Int) :
    addrHexOf dec = ("Error").toList ∨ isHexStr (addrHexOf dec) = true := by
  unfold addrHexOf
  split
  · exact Or.inl rfl
  · next h =>
    right
    refine pyZfill_hex _ _ (pyHexU_hex ?_)
    simp only [Bool.or_eq_true, decide_eq_true_eq] at h
    omega

lemma Op_byte_try_ok {s r : Str} (h : Op_byte_try s = some r) :
    r = ("Error").toList ∨ isHexStr r = true := by
  unfold Op_byte_try at h
  split at h
  · right
    injection h with h2
    subst h2
    exact pyZfill_hex _ _ (natHexU_hex _)
  · split at h
    · rcases Option.map_eq_some'.mp h with ⟨dec, _, hval⟩
      subst hval
      exact byteHexOf_ok dec
    · split at h
      · rcases Option.map_eq_some'.mp h with ⟨dec, _, hval⟩
        subst hval
        exact byteHexOf_ok dec
      · split at h
        · rcases Option.map_eq_some'.mp h with ⟨dec, _, hval⟩
          subst hval
          exact byteHexOf_ok dec
        · rcases Option.map_eq_some'.mp h with ⟨dec, _, hval⟩
          subst hval
          exact byteHexOf_ok dec

lemma Op_addr_try_ok {s r : Str} (h : Op_addr_try s = some r) :
    r = ("Error").toList ∨ isHexStr r = true := by
  unfold Op_addr_try at h
  split at h
  · right
    injection h with h2
    subst h2
    exact pyZfill_hex _ _ (natHexU_hex _)
  · split at h
    · rcases Option.map_eq_some'.mp h with ⟨dec, _, hval⟩
      subst hval
      exact addrHexOf_ok dec
    · split at h
      · rcases Option.map_eq_some'.mp h with ⟨dec, _, hval⟩
        subst hval
        exact addrHexOf_ok dec
      · split at h
        · rcases Option.map_eq_some'.mp h with ⟨dec, _, hval⟩
          subst hval
          exact addrHexOf_ok dec
        · rcases Option.map_eq_some'.mp h with ⟨dec, _, hval⟩
          subst hval
          exact addrHexOf_ok dec

/-! ### The claim theorems -/

/-- C1: the claim says every emitted Intel HEX data record's bytes after
the colon, checksum included, sum to 0 mod 256.  The code's checksum sum
uses the constant 1 as the length byte for 2- and 3-byte records as well,
so their records are off by 1 resp. 2 (the run on `MVI C,0A1H` emits
`:020000000EA150`, whose bytes sum to 1 mod 256, where valid Intel HEX
needs `4F`); and when the sum is a multiple of 256 the 1-byte record's
checksum is emitted as the three-character string `100` (run on `RST 7`),
which does not even parse into whole bytes. -/
theorem C1_hex_checksum_bug :
    asmHex [("MVI C,0A1H").toList] =
        some (HexOut.file [(":020000000EA150").toList, (":00000001FF").toList])
    ∧ (pairBytes ((":020000000EA150").toList.drop 1)).map (fun l => l.sum % 256) = some 1
    ∧ asmHex [("JMP 0").toList] =
        some (HexOut.file [(":03000000C300003C").toList, (":00000001FF").toList])
    ∧ (pairBytes ((":03000000C300003C").toList.drop 1)).map (fun l => l.sum % 256) = some 2
    ∧ asmHex [("RST 7").toList] =
        some (HexOut.file [(":01000000FF100").toList, (":00000001FF").toList])
    ∧ pairBytes ((":01000000FF100").toList.drop 1) = none := by
  decide

/-- C2 counterexample: the claim says the first definition of a duplicated
label wins in Pass-2 lookups.  On `L: NOP / L: NOP / JMP L` the symbol
list is `[(L,0),(L,1)]`, the Pass-2 lookup loop returns the LAST value 1,
and the resolved listing row of `JMP L` reads `C3 01 00`, i.e. the second
definition's address. -/
theorem C2_first_def_wins_counterexample :
    (pass1Run progDup).map (fun r => r.1.symbols) =
      some [(("L").toList, (0 : Int)), (("L").toList, (1 : Int))]
    ∧ lastMatch [(("L").toList, (0 : Int)), (("L").toList, (1 : Int))] (("L").toList) = some 1
    ∧ ¬ lastMatch [(("L").toList, (0 : Int)), (("L").toList, (1 : Int))] (("L").toList) = some 0
    ∧ containsSub (((asmListing progDup).getD []).getD 3 []) (("C3 01 00").toList) = true := by
  decide

/-- C2 (amended): the second defining line of a duplicated label carries
`*D*`, and a Pass-2 symbol lookup resolves to the value of the LAST
definition of the name (the lookup loop's `continue` never stops it, so
every later match overwrites the earlier one). -/
theorem C2_dup_label_last_wins :
    (((asmListing progDup).getD []).getD 2 []).take 3 = ("*D*").toList
    ∧ ∀ (pre : List (Str × Int)) (l : Str) (v : Int),
        lastMatch (pre ++ [(l, v)]) l = some v := by
  refine ⟨by decide, ?_⟩
  intro pre l v
  unfold lastMatch
  rw [List.foldl_append]
  simp

/-- C3: the claim says an `EQU` division by zero sets `*V*` through a
guard on the right-hand side being 0 and assembly continues.  The guard
`if p1 == 0` compares `Op_addr`'s string result with the integer 0, which
is always false in Python, so on `X: EQU 5/0` the division raises an
uncaught ZeroDivisionError (modelled: the pipeline returns `none`) instead
of setting `*V*`. -/
theorem C3_equ_div_zero_crash :
    assemble [("X: EQU 5/0").toList] = none
    ∧ pyEqStrInt (Op_addr (("0").toList)) 0 = false := by
  decide

/-- C4 counterexample: the claim says no final listing line contains `?`
because unresolved placeholders become `*U*` plus `-- --`.  For the
single-byte placeholder of `MVI A,FOO` (FOO undefined) Pass 2 sets `*U*`
but leaves the `??` in place, so the final listing line does contain `?`. -/
theorem C4_question_mark_survives :
    (((asmListing progByteU).getD []).getD 1 []).contains '?' = true
    ∧ (((asmListing progByteU).getD []).getD 1 []).take 3 = ("*U*").toList := by
  decide

/-- C4 (amended): an unresolved two-byte address placeholder `?? ??` is
marked `*U*` and rewritten to `-- --` (no `?` remains), but an unresolved
single-byte placeholder `??` is marked `*U*` with the `??` left in place,
so a final listing line can contain `?`. -/
theorem C4_placeholder_rewrite :
    ((((asmListing progAddrU).getD []).getD 1 []).take 3 = ("*U*").toList
      ∧ containsSub (((asmListing progAddrU).getD []).getD 1 []) (("-- --").toList) = true
      ∧ (((asmListing progAddrU).getD []).getD 1 []).contains '?' = false)
    ∧ ((((asmListing progByteU).getD []).getD 1 []).take 3 = ("*U*").toList
      ∧ containsSub (((asmListing progByteU).getD []).getD 1 []) (("??").toList) = true) := by
  decide

/-- C5: the HEX file is created exactly when the error COUNTER is zero
(first conjunct, the literal `if parser.errors == 0` gate), but the
claim's second half — that a line carrying any error code suppresses the
file — fails: the RST branch sets `*V*` without incrementing the counter,
so `RST 99` yields a listing line marked `*V*`, a final error count of 0,
and a HEX file is written anyway; while a counted error (`FOO`, `*O*`)
suppresses the file and still produces the listing. -/
theorem C5_hex_gate_eval :
    (∀ (e : Nat) (lst : List Str), hexRun e lst = HexOut.noFile ↔ e ≠ 0)
    ∧ ((((asmListing progRst99).getD []).getD 1 []).take 3 = ("*V*").toList
       ∧ asmErrors progRst99 = some 0
       ∧ asmHex progRst99 = some (HexOut.file [(":01000000C738").toList, (":00000001FF").toList]))
    ∧ (asmHex [("FOO").toList] = some HexOut.noFile
       ∧ (asmListing [("FOO").toList]).isSome = true) := by
  refine ⟨?_, by decide, by decide⟩
  intro e lst
  unfold hexRun
  constructor
  · intro h he
    rw [he] at h
    rw [if_pos rfl] at h
    rcases hl : hexLoop lst with ⟨rs, ok⟩
    rw [hl] at h
    cases ok <;> simp at h
  · intro he
    rw [if_neg he]

/-- C6 counterexample: the claim says `NAME: EQU expr` first inserts the
pair `(NAME, 0)` regardless of the program counter.  After `NOP`, the line
`V: EQU X` (X unresolvable) leaves the tuple `(V, 1)` — the current pc —
in the symbol table, not `(V, 0)`. -/
theorem C6_equ_inserts_pc_counterexample :
    (pass1Run progEquFwd).map (fun r => r.1.symbols) = some [(("V").toList, (1 : Int))]
    ∧ ¬ (pass1Run progEquFwd).map (fun r => r.1.symbols) = some [(("V").toList, (0 : Int))] := by
  decide

/-- C6 (amended): `NAME: EQU expr` initially inserts `(NAME, pc)` with the
CURRENT program counter (so `(NAME, 0)` only when pc = 0); when the
expression resolves in Pass 1 the tuple is replaced by the resolved value,
and when it does not resolve the `(NAME, pc)` tuple is left in place. -/
theorem C6_equ_insert_replace :
    (pass1Run progEquFwd).map (fun r => r.1.symbols) = some [(("V").toList, (1 : Int))]
    ∧ (pass1Run progEquVal).map (fun r => r.1.symbols) = some [(("V").toList, (5 : Int))]
    ∧ (pass1Run [("V: EQU X").toList]).map (fun r => r.1.symbols) =
        some [(("V").toList, (0 : Int))] := by
  decide

/-- C7 counterexample: the claim says `DB 256` is marked `*V*`.  Pass 1
sets no error code at all on `DB 256`: the failed byte parse only replaces
b1 with the placeholder `??` and defers to Pass 2. -/
theorem C7_db256_counterexample :
    (pass1Run progDb256).map (fun r => (r.1.err, r.1.errors, r.1.b1)) =
      some (([], 0, (("??").toList)))
    ∧ ¬ (pass1Run progDb256).map (fun r => r.1.err) = some (("*V*").toList) := by
  decide

/-- C7 (amended): a `DB` operand that fails the byte parse (such as the
out-of-range `DB 256`) gets no `*V*`; it is treated as a possible label,
left as `??`, and Pass 2 marks the line `*U*` (undefined symbol) when no
such symbol exists; the in-range `DB 255` is emitted as `FF` with no
error. -/
theorem C7_db_range_behavior :
    ((((asmListing progDb256).getD []).getD 1 []).take 3 = ("*U*").toList
      ∧ asmErrors progDb256 = some 1)
    ∧ (pySlice (((asmListing progDb255).getD []).getD 1 []) 15 17 = ("FF").toList
      ∧ asmErrors progDb255 = some 0
      ∧ (((asmListing progDb255).getD []).getD 1 []).take 3 = ("   ").toList) := by
  decide

/-- C8: the claim says RST rejects any operand other than a digit 0-7 with
`*V*`, in particular `RST 8`.  The guard only checks that the high hex
digit of the parsed byte is '0', so `RST 8` passes it and the line gets
NO error and the three-character byte string `107` (0xC7 + 8*8) as b1,
while `RST 7` correctly emits `FF`. -/
theorem C8_rst8_accepted :
    (pass1Run [("RST 8").toList]).map (fun r => (r.1.err, r.1.b1, r.1.errors)) =
      some (([], ("107").toList, 0))
    ∧ (pass1Run [("RST 7").toList]).map (fun r => (r.1.err, r.1.b1)) =
      some (([], ("FF").toList)) := by
  decide

/-- C9 counterexample: the claim says a `;` inside a quoted literal does
not start a comment.  On `MVI A,';'` the comment-detection uses a bare
`line.find(';')`, so the comment starts at the quoted semicolon: the
recorded comment is `;'` and the operand is cut to `A,'`. -/
theorem C9_semicolon_in_literal :
    (pass1Run [lineSemiLit]).map (fun r => (r.1.comment, r.1.mne, r.1.b2)) =
      some (([';', '\''], ("MVI").toList, ("??").toList))
    ∧ ¬ (pass1Run [lineSemiLit]).map (fun r => r.1.comment) = some [] := by
  decide

/-- C9 (amended): the comment begins at the FIRST `;` anywhere in the
line, quoted or not (the quote-awareness applies only to the label colon),
and the text before that `;` is parsed normally. -/
theorem C9_comment_first_semicolon :
    (pass1Run [lineSemiLit]).map (fun r => (r.1.comment, r.1.oper)) =
      some (([';', '\''], ("A,").toList ++ ['\'']))
    ∧ (pass1Run [("MVI A,1 ;c").toList]).map (fun r => (r.1.comment, r.1.b1, r.1.b2)) =
      some (((";c").toList, ("3E").toList, ("01").toList)) := by
  decide

/-- C10: the numeric-literal parsers are total and shape-correct: for
every input string `Op_byte` returns `'Error'` or a string of hex digits,
and `Op_addr` returns `'Error'`, `'Label'`, or a string of hex digits —
the `try/except` wrappers turn every internal exception into `'Error'`. -/
theorem C10_literal_totality :
    (∀ s : Str, Op_byte s = ("Error").toList ∨ isHexStr (Op_byte s) = true)
    ∧ (∀ s : Str, Op_addr s = ("Error").toList ∨ Op_addr s = ("Label").toList ∨
        isHexStr (Op_addr s) = true) := by
  constructor
  · intro s
    unfold Op_byte
    cases h : Op_byte_try s with
    | none => left; rfl
    | some r =>
      rcases Op_byte_try_ok h with h1 | h1
      · left; simpa using h1
      · right; simpa using h1
  · intro s
    unfold Op_addr
    split
    · left; rfl
    · split
      · right; left; rfl
      · cases h : Op_addr_try s with
        | none => left; rfl
        | some r =>
          rcases Op_addr_try_ok h with h1 | h1
          · left; simpa using h1
          · right; right; simpa using h1
